import Mathlib

/-!
Shallow embedding of `src/fastapi_jupyter_server.py`: the session/kernel
lifecycle orchestrator of the sandboxed Jupyter code-execution service.

Modelling conventions:
* Python strings are Lean `String`s; the Python string operations used by the
  source (`split(sep)[0]`, `replace`, `strip`, `'\n'.join`) are re-implemented
  below as structurally recursive functions over `List Char` so that all
  definitions evaluate inside the kernel.
* Timestamps (`time.time()`) are modelled as `Int` seconds.
* The external Jupyter kernel is an opaque collaborator: the iopub messages it
  emits for one submission are an explicit `List KMsg` parameter, and the
  outcomes of external waits (readiness polls, pip subprocesses, process
  liveness checks) are Boolean/function-valued fields of an environment
  record `RunEnv`.  Exhausting the message list models the per-message
  20-second `queue.Empty` timeout.
* Python exceptions are explicit values: `PyError.httpException` models
  `fastapi.HTTPException` (a subclass of `Exception`, with
  `str(e) = f"{status_code}: {detail}"`), `PyError.runtimeError` models
  `RuntimeError`.  Where the source interpolates `str(e)` of some caught
  *external* exception into a message, the environment field `excStr` stands
  for that text.
* `repr` of the Python error-detail dict is modelled for strings not
  containing quote or escape characters (none of the claims depend on
  Python's quote-escaping in `repr`).
-/

/-- `charsStartWith p l` is true when `p` is an initial segment of `l`. -/
def charsStartWith : List Char → List Char → Bool
  | [], _ => true
  | _ :: _, [] => false
  | p :: ps, c :: cs => p = c && charsStartWith ps cs

/-- Python `s.split(sep)[0]`: the prefix of `l` before the first occurrence of
the (nonempty) separator `sep`; `l` itself when `sep` does not occur. -/
def cutAtSep (sep : List Char) : List Char → List Char
  | [] => []
  | c :: rest => if charsStartWith sep (c :: rest) then [] else c :: cutAtSep sep rest

/-- The whitespace characters stripped by Python `str.strip()` (ASCII part). -/
def isPyWhitespace (c : Char) : Bool :=
  c = ' ' || c = '\x09' || c = '\x0a' || c = '\x0d' || c = '\x0b' || c = '\x0c'

/-- Python `str.strip()` on a character list. -/
def pyStrip (l : List Char) : List Char :=
  ((l.dropWhile isPyWhitespace).reverse.dropWhile isPyWhitespace).reverse

/-- Python `str.strip()` on a string. -/
def pyStripStr (s : String) : String := String.mk (pyStrip s.toList)

/-- `sep.join(l)` for Python strings, structurally recursive. -/
def strJoinSep (sep : String) : List String → String
  | [] => ""
  | [x] => x
  | x :: y :: xs => x ++ sep ++ strJoinSep sep (y :: xs)

/-- Best-effort import identifier derived from a pip package name, source line
308: `package_name.split('[')[0].split('==')[0].split('<')[0].split('>')[0]
.replace('-', '_')`. -/
def importName (p : String) : String :=
  String.mk
    ((cutAtSep (">".toList)
      (cutAtSep ("<".toList)
        (cutAtSep ("==".toList)
          (cutAtSep ("[".toList) p.toList)))).map
      (fun c => if c = '-' then '_' else c))

/-- One iopub message as classified by `execute_code` (source lines 115-149):
its `msg_type` together with the content fields the code reads.  Only the
`status` branch reads `parent_header.msg_id`, so only that constructor carries
the parent token. -/
inductive KMsg where
  | stream (text : String)
  | executeResult (textPlain : String)
  | displayData (hasPng hasHtml : Bool) (textPlain : String)
  | errorMsg (ename evalue : String) (traceback : List String)
  | status (executionState : String) (parentMsgId : String)
  | other
deriving DecidableEq

/-- The `detail` payload of an `HTTPException`: either a plain string or the
structured error dict built at source lines 135-140. -/
inductive ErrDetail where
  | text (s : String)
  | execError (ename evalue : String) (traceback : List String)
deriving DecidableEq

/-- The Python exceptions the orchestrator raises. -/
inductive PyError where
  | httpException (status : Nat) (detail : ErrDetail)
  | runtimeError (msg : String)
deriving DecidableEq

/-- Outcome of `JupyterController.execute_code`: the returned output string or
the exception that escaped it. -/
inductive ExecResult where
  | ok (output : String)
  | err (e : PyError)
deriving DecidableEq

/-- Python `repr` of a string (quote characters in `s` not modelled). -/
def pyQuote (s : String) : String := "'" ++ s ++ "'"

/-- Python `repr` of a list of strings. -/
def pyListRepr (xs : List String) : String :=
  "[" ++ strJoinSep (", ") (xs.map pyQuote) ++ "]"

/-- `str(detail)` as interpolated into f-strings by the source. -/
def detailStr : ErrDetail → String
  | .text s => s
  | .execError ename evalue tb =>
      "\x7b'error': 'Execution error', 'ename': " ++ pyQuote ename ++
        ", 'evalue': " ++ pyQuote evalue ++ ", 'traceback': " ++ pyListRepr tb ++ "\x7d"

/-- `str(e)` of an `HTTPException`: `f"{status_code}: {detail}"`. -/
def httpExcStr (status : Nat) (d : ErrDetail) : String :=
  toString status ++ ": " ++ detailStr d

/-- `'\n'.join(outputs).strip() if outputs else ""`, source line 167. -/
def joinOutputs (outputs : List String) : String :=
  if outputs.isEmpty then "" else pyStripStr (strJoinSep ("\x0a") outputs)

/-- The message-consumption loop of `execute_code`, source lines 111-167.
`msgId` is the token returned by `kernel_client.execute(code)`;
`aliveAtTimeout` is what `kernel_manager.is_alive()` reports when the
per-message 20 s wait expires (modelled by exhausting the list); `outputs` is
the accumulator.  The second component of the result is the `_kernel_ready`
flag after the loop (cleared only on the died-during-execution branch, line
154).  Note the `HTTPException(400, …)` raised on an `error` message at line
142 is raised inside the `try` body, so it is caught by the blanket
`except Exception` at line 161 and re-raised as an `HTTPException(500, …)`
whose detail embeds `str(e)` of the original. -/
def execLoop (msgId : String) (aliveAtTimeout : Bool) : List KMsg → List String → ExecResult × Bool
  | [], _ =>
      if aliveAtTimeout then
        (.err (.httpException 408 (.text ("Code execution timed out waiting for response from kernel."))), true)
      else
        (.err (.runtimeError ("Kernel died during execution. Please restart session.")), false)
  | .stream t :: rest, outputs => execLoop msgId aliveAtTimeout rest (outputs ++ [t])
  | .executeResult t :: rest, outputs => execLoop msgId aliveAtTimeout rest (outputs ++ [t])
  | .displayData png html t :: rest, outputs =>
      if png then execLoop msgId aliveAtTimeout rest (outputs ++ ["[Image data: base64 PNG omitted]"])
      else if html then execLoop msgId aliveAtTimeout rest (outputs ++ ["[HTML data omitted]"])
      else if t = "" then execLoop msgId aliveAtTimeout rest outputs
      else execLoop msgId aliveAtTimeout rest (outputs ++ [t])
  | .errorMsg ename evalue tb :: _, _ =>
      (.err (.httpException 500
        (.text ("Internal error processing kernel output: " ++
          httpExcStr 400 (.execError ename evalue tb)))), true)
  | .status es parent :: rest, outputs =>
      if es = "idle" then
        if parent = msgId then (.ok (joinOutputs outputs), true)
        else execLoop msgId aliveAtTimeout rest outputs
      else execLoop msgId aliveAtTimeout rest outputs
  | .other :: rest, outputs => execLoop msgId aliveAtTimeout rest outputs

/-- The strings a single message contributes to the `outputs` accumulator
(the append cases of the loop). -/
def msgContribs : KMsg → List String
  | .stream t => [t]
  | .executeResult t => [t]
  | .displayData png html t =>
      if png then ["[Image data: base64 PNG omitted]"]
      else if html then ["[HTML data omitted]"]
      else if t = "" then [] else [t]
  | _ => []

/-- Messages that end the loop: an `error` message, or an idle `status`
message whose parent token matches the submitted one. -/
def isTerminator (msgId : String) : KMsg → Bool
  | .errorMsg _ _ _ => true
  | .status es parent => es = "idle" && parent = msgId
  | _ => false

/-- Output as worded by the specification for comparison (claim C2): the plain
concatenation, in arrival order, of the text of the stream and result-value
messages, trimmed of surrounding whitespace. -/
def specConcatOutput (msgs : List KMsg) : String :=
  pyStripStr (String.join (msgs.map fun m =>
    match m with
    | .stream t => t
    | .executeResult t => t
    | _ => ""))

/-- `SessionInfo` of source lines 208-213 together with the two flags of its
controller that the orchestration logic reads: `_kernel_ready` and the
observable liveness of the kernel process. -/
structure SessionInfo where
  createdAt : Int
  lastActivity : Int
  ready : Bool
  alive : Bool
deriving DecidableEq

/-- The in-memory session registry `sessions: Dict[str, SessionInfo]`,
as an association list with distinct keys (Python dict semantics: lookup by
key, insertion preserves position of an existing key and appends new keys). -/
abbrev Registry := List (String × SessionInfo)

/-- `sessions.get(cid)` / `cid in sessions`. -/
def lookupReg : Registry → String → Option SessionInfo
  | [], _ => none
  | (k, s) :: rest, cid => if k = cid then some s else lookupReg rest cid

/-- `del sessions[cid]` / `sessions.pop(cid)` (no-op when absent). -/
def removeKey : Registry → String → Registry
  | [], _ => []
  | (k, s) :: rest, cid => if k = cid then removeKey rest cid else (k, s) :: removeKey rest cid

/-- `sessions[cid] = s`. -/
def insertReg : Registry → String → SessionInfo → Registry
  | [], cid, s => [(cid, s)]
  | (k, s0) :: rest, cid, s => if k = cid then (cid, s) :: rest else (k, s0) :: insertReg rest cid s

/-- `list(sessions.keys())`. -/
def keys (reg : Registry) : List String := reg.map Prod.fst

/-- Outcome of the `python -m pip install` subprocess, source lines 287-303:
success, nonzero exit status (`errText` models `result.stderr or
result.stdout`), or `subprocess.TimeoutExpired` after 300 s. -/
inductive PipOutcome where
  | ok (stdout : String)
  | fail (errText : String)
  | timedOut
deriving DecidableEq

/-- The external-world parameters of one request: outcomes of the bounded
waits and subprocesses the orchestrator performs, and the kernel's response
stream for the submitted code.
* `notebookOk` — `create_notebook` (workspace, kernel start, 30 s readiness wait) succeeds;
* `setupOk` — the bootstrap-imports snippet of `_create_session` succeeds;
* `accessResetOk` — the `reset_kernel()` + re-bootstrap attempted by `get_session` succeeds;
* `waitReadyOk` — the 15 s readiness wait of `get_session` succeeds;
* `execWaitOk` — the 5 s readiness retry at the top of `execute_code` succeeds;
* `aliveAtTimeout` — what `is_alive()` reports when the per-message wait expires;
* `excStr` — stands for `str(e)` of whichever external exception a failing step raised;
* `pip` — outcome of the pip subprocess per package name;
* `imp` — outcome of executing `import <name>` through `execute_code`, per import name;
* `msgId` / `responses` — the correlation token returned by `execute(code)` and
  the iopub messages that arrive (in time) after submission. -/
structure RunEnv where
  now : Int
  notebookOk : Bool
  setupOk : Bool
  accessResetOk : Bool
  waitReadyOk : Bool
  execWaitOk : Bool
  aliveAtTimeout : Bool
  excStr : String
  pip : String → PipOutcome
  imp : String → ExecResult
  msgId : String
  responses : List KMsg

/-- `execute_code` after the readiness precheck, source lines 100-167: the
liveness check (lines 100-102, clearing `_kernel_ready` when dead), the drain
of pending messages (line 105, messages before submission never reach the
loop), submission, and the message loop.  Returns the result together with
the updated session flags. -/
def execute_code_ready (s : SessionInfo) (env : RunEnv) : ExecResult × SessionInfo :=
  if s.alive = false then
    (.err (.runtimeError ("Kernel died. Please restart session.")), { s with ready := false })
  else
    match execLoop env.msgId env.aliveAtTimeout env.responses [] with
    | (r, readyAfter) => (r, { s with ready := readyAfter })

/-- `JupyterController.execute_code`, source lines 88-167, including the
not-ready precheck of lines 90-97 (a 5 s readiness retry whose success is
`env.execWaitOk`; on timeout a `RuntimeError` escapes). -/
def execute_code (s : SessionInfo) (env : RunEnv) : ExecResult × SessionInfo :=
  if s.ready = false then
    if env.execWaitOk then execute_code_ready { s with ready := true } env
    else (.err (.runtimeError ("Kernel not ready. Please wait for initialization or restart session.")), s)
  else execute_code_ready s env

/-- `_install_dependencies`, source lines 273-332: for each name in list
order, skip empty strings (line 282), run pip with a 300 s bound, then import
the derived module name through `execute_code`; the first failure at either
stage aborts the remaining list.  `none` means every name was processed
without failure; `some (status, detail)` is the `HTTPException` that aborted
the walk.  An `HTTPException` from the import step is re-raised at line 317
naming the package; a `RuntimeError` from it falls to the generic handler at
line 330. -/
def _install_dependencies (pip : String → PipOutcome) (imp : String → ExecResult) :
    List String → Option (Nat × String)
  | [] => none
  | p :: rest =>
      if p = "" then _install_dependencies pip imp rest
      else
        match pip p with
        | .timedOut => some (408, "Package installation timed out for '" ++ p ++ "'")
        | .fail errText => some (400, "Failed to install dependency '" ++ p ++ "': " ++ errText)
        | .ok _ =>
          match imp (importName p) with
          | .ok _ => _install_dependencies pip imp rest
          | .err (.httpException _ d) =>
              some (400, "Package '" ++ p ++ "' installed but failed to import in kernel: " ++ detailStr d)
          | .err (.runtimeError m) =>
              some (500, "Unexpected error installing dependency '" ++ p ++ "': " ++ m)

/-- `get_session`, source lines 335-397: 404 when the id is unknown; bump
`last_activity`; if the kernel process is dead, clear readiness and attempt
one `reset_kernel()` + re-bootstrap (success `env.accessResetOk`), removing
the session and failing with 500 when that fails; if alive but not ready,
wait up to 15 s (`env.waitReadyOk`) and fall back to the same
reset-or-remove; otherwise return the session. -/
def get_session (reg : Registry) (cid : String) (env : RunEnv) :
    Except (Nat × String) SessionInfo × Registry :=
  match lookupReg reg cid with
  | none =>
      (.error (404, "Session '" ++ cid ++ "' not found. Please start a new session or check the ID."), reg)
  | some s0 =>
      let s1 : SessionInfo := { s0 with lastActivity := env.now }
      if s1.alive = false then
        if env.accessResetOk then
          let s2 : SessionInfo := { s1 with ready := true, alive := true }
          (.ok s2, insertReg reg cid s2)
        else
          (.error (500, "Kernel for session '" ++ cid ++ "' died and could not be reset. Please start a new session."),
           removeKey reg cid)
      else if s1.ready = false then
        if env.waitReadyOk then
          let s2 : SessionInfo := { s1 with ready := true }
          (.ok s2, insertReg reg cid s2)
        else if env.accessResetOk then
          let s2 : SessionInfo := { s1 with ready := true }
          (.ok s2, insertReg reg cid s2)
        else
          (.error (500, "Kernel for session '" ++ cid ++ "' failed to become ready and could not be reset. Please start a new session."),
           removeKey reg cid)
      else
        (.ok s1, insertReg reg cid s1)

/-- `_create_session`, source lines 225-270: tear down any session already
registered under the id (lines 227-231); create the workspace, notebook and
kernel and wait for readiness (`env.notebookOk`); register the session (line
240); run the bootstrap-imports snippet (`env.setupOk`), and on its failure
clean up, deregister (line 261) and fail.  An inner `HTTPException(500,
"Failed to initialize session environment: …")` is caught by the outer
`except Exception` at line 267 and re-wrapped as `HTTPException(500,
f"Failed to create session: {str(e)}")`. -/
def _create_session (reg : Registry) (cid : String) (env : RunEnv) :
    Except (Nat × String) SessionInfo × Registry :=
  let reg0 := removeKey reg cid
  if env.notebookOk = false then
    (.error (500, "Failed to create session: " ++ env.excStr), reg0)
  else
    let s : SessionInfo := { createdAt := env.now, lastActivity := env.now, ready := true, alive := true }
    let reg1 := insertReg reg0 cid s
    if env.setupOk then (.ok s, reg1)
    else
      (.error (500, "Failed to create session: 500: Failed to initialize session environment: " ++ env.excStr),
       removeKey reg1 cid)

/-- The result an endpoint hands to the transport: a success payload
(`output` for `/run`, `message` for `/reset` and `/end_session`) or an
`HTTPException` with status and detail. -/
inductive RunResult where
  | output (s : String)
  | message (s : String)
  | httpError (status : Nat) (detail : String)
deriving DecidableEq

/-- The `/run` endpoint `run_code_in_session`, source lines 436-473: when the
conversation id is registered, access it through `get_session`; otherwise
create a brand-new session for it via `_create_session` (lines 444-452); then
install the requested dependencies and execute the request's code.
`HTTPException`s propagate; any other exception (e.g. the `RuntimeError`s of
`execute_code`) becomes a 500 at line 473. -/
def run_endpoint (reg : Registry) (cid : String) (deps : List String) (env : RunEnv) :
    RunResult × Registry :=
  match (if (lookupReg reg cid).isSome then get_session reg cid env else _create_session reg cid env) with
  | (.error (st, d), reg1) => (.httpError st d, reg1)
  | (.ok s, reg1) =>
    match _install_dependencies env.pip env.imp deps with
    | some (st, d) => (.httpError st d, reg1)
    | none =>
      match execute_code s env with
      | (.ok out, s2) => (.output out, insertReg reg1 cid s2)
      | (.err (.httpException st d), s2) => (.httpError st (detailStr d), insertReg reg1 cid s2)
      | (.err (.runtimeError m), s2) =>
          (.httpError 500 ("An unexpected internal server error occurred: " ++ m), insertReg reg1 cid s2)

/-- The `/reset` endpoint `reset_session`, source lines 477-511: fetch the
session through `get_session`, call `reset_kernel()` (restart + readiness
wait; on failure it clears readiness, shuts the kernel down and raises a
`RuntimeError`, which the handler at line 509 turns into a 500 — the session
stays registered), then re-run the bootstrap snippet; its failure is a 500
that deliberately keeps the session registered (comment at line 501). -/
def reset_session (reg : Registry) (cid : String) (env : RunEnv)
    (restartOk setupAfterResetOk : Bool) : RunResult × Registry :=
  match get_session reg cid env with
  | (.error (st, d), reg1) => (.httpError st d, reg1)
  | (.ok s, reg1) =>
      if restartOk = false then
        (.httpError 500 ("Failed to reset session '" ++ cid ++ "': Failed to reset kernel: " ++ env.excStr),
         insertReg reg1 cid { s with ready := false, alive := false })
      else
        if setupAfterResetOk then
          (.message ("Kernel for session '" ++ cid ++ "' reset successful"),
           insertReg reg1 cid { s with ready := true })
        else
          (.httpError 500 ("Kernel reset, but failed to re-initialize environment: " ++ env.excStr),
           insertReg reg1 cid { s with ready := true })

/-- The `/end_session` endpoint, source lines 514-535: 404 when the id is
unknown, otherwise pop the session and schedule its cleanup. -/
def end_session (reg : Registry) (cid : String) : RunResult × Registry :=
  match lookupReg reg cid with
  | none => (.httpError 404 ("Session '" ++ cid ++ "' not found."), reg)
  | some _ =>
      (.message ("Session '" ++ cid ++ "' ended successfully and cleanup initiated."), removeKey reg cid)

/-- Phase 1 of one GC cycle of `cleanup_inactive_sessions`, source lines
405-417: over the snapshot `sessionIds`, collect the ids still registered
whose idle duration `now - last_activity` exceeds 3600 s. -/
def collectInactive (sessionIds : List String) (reg : Registry) (now : Int) : List String :=
  sessionIds.filter fun cid =>
    match lookupReg reg cid with
    | some s => decide (3600 < now - s.lastActivity)
    | none => false

/-- Phase 2, source lines 419-426: pop each collected id that is still
registered (the double check at line 420) and schedule its teardown; an id
already gone is skipped. -/
def sweepRemove : List String → Registry → Registry
  | [], reg => reg
  | cid :: rest, reg =>
      if (lookupReg reg cid).isSome then sweepRemove rest (removeKey reg cid)
      else sweepRemove rest reg

/-- One full cycle of the background GC loop over a key snapshot. -/
def cleanup_cycle (sessionIds : List String) (reg : Registry) (now : Int) : Registry :=
  sweepRemove (collectInactive sessionIds reg now) reg

set_option maxRecDepth 100000

/-- A healthy, ready session used in concrete scenarios. -/
def liveSession : SessionInfo := { createdAt := 0, lastActivity := 0, ready := true, alive := true }

/-- A fully successful external world for concrete scenarios: creation,
readiness and bootstrap succeed, pip and imports succeed, and the kernel
answers the submitted code with one line of stream text followed by the
matching idle status. -/
def happyEnv : RunEnv where
  now := 100
  notebookOk := true
  setupOk := true
  accessResetOk := true
  waitReadyOk := true
  execWaitOk := true
  aliveAtTimeout := true
  excStr := "boom"
  pip := fun _ => .ok ""
  imp := fun _ => .ok ""
  msgId := "m1"
  responses := [.stream ("hi\x0a"), .status ("idle") ("m1")]

/-- C1: the claim fails on the code: `run` on a conversation id absent from
the registry does not yield a not-found error — after a successful
`end_session("C")`, a subsequent `run("C", …)` implicitly creates a brand-new
session under `C` (source lines 449-452) and returns its output with status
200, where the repository's own test `src/test_api.py` step 8 expects 404. -/
theorem c1_run_after_end_creates_session :
    end_session [("C", liveSession)] "C" =
      (.message ("Session 'C' ended successfully and cleanup initiated."), []) ∧
    run_endpoint [] "C" [] happyEnv =
      (.output ("hi"), [("C", { createdAt := 100, lastActivity := 100, ready := true, alive := true })]) ∧
    (run_endpoint [] "C" [] happyEnv).1 ≠
      .httpError 404 ("Session 'C' not found. Please start a new session or check the ID.") := by
  decide

/-- C5: code_bug evaluation: when the interpreter emits an `error` message the
loop terminates immediately and never returns a successful output, but the
structured `HTTPException(400, {ename, evalue, traceback})` built at source
lines 135-145 is caught by the blanket `except Exception` at line 161 and
surfaces as a 500 whose detail is the flattened `str(e)` — not as the
structured 400 `ExecutionError` the claim (and `src/test_api.py` step 4)
describes. -/
theorem c5_kernel_error_surfaces_as_wrapped_500 :
    (execLoop "m1" true [.errorMsg ("NameError") ("name x is not defined") ["tb1", "tb2"]] []).1 =
      .err (.httpException 500 (.text ("Internal error processing kernel output: " ++
        httpExcStr 400 (.execError ("NameError") ("name x is not defined") ["tb1", "tb2"])))) ∧
    (execLoop "m1" true [.errorMsg ("NameError") ("name x is not defined") ["tb1", "tb2"]] []).1 ≠
      .err (.httpException 400 (.execError ("NameError") ("name x is not defined") ["tb1", "tb2"])) := by
  decide

/-- C2: counterexample to the claim as stated: for an error-free execution
with stream text "a", result value "b" and a PNG display message, the code
returns the newline-joined string "a\nb\n[Image data: base64 PNG omitted]"
(source line 167 joins with a newline separator, and rich-display messages
contribute placeholders), not the plain concatenation "ab" of the
stream/result texts. -/
theorem c2_output_is_not_plain_concatenation :
    (execLoop "m1" true [.stream ("a"), .executeResult ("b"), .displayData true false "", .status ("idle") ("m1")] []).1 =
      .ok ("a\x0ab\x0a[Image data: base64 PNG omitted]") ∧
    specConcatOutput [.stream ("a"), .executeResult ("b"), .displayData true false ""] = "ab" ∧
    ("a\x0ab\x0a[Image data: base64 PNG omitted]" : String) ≠ "ab" := by
  decide

/-- C3: counterexample to the restart part of the claim: with session "C"
registered, alive and ready, a `/reset` request whose kernel restart fails is
answered with a 500 but leaves "C" registered (the handler at source lines
506-511 never removes it; only `get_session`'s restart path does). -/
theorem c3_reset_failure_keeps_session_registered :
    (reset_session [("C", liveSession)] "C" happyEnv false true).1 =
      .httpError 500 ("Failed to reset session 'C': Failed to reset kernel: boom") ∧
    lookupReg (reset_session [("C", liveSession)] "C" happyEnv false true).2 "C" =
      some { createdAt := 0, lastActivity := 100, ready := false, alive := false } := by
  decide

/-- C2 (amended): for every execution that completes without an interpreter
error — the arriving messages are non-terminators followed by the idle status
carrying the submitted token — the returned output equals the per-message
text contributions (stream text, result-value text, rich-display placeholder
or text fallback), in arrival order, joined with newline separators and
trimmed of surrounding whitespace (empty string when nothing contributed). -/
theorem c2_success_output_is_newline_join (msgId : String) (aliveT : Bool)
    (pre : List KMsg) (acc : List String)
    (h : ∀ m ∈ pre, isTerminator msgId m = false) :
    execLoop msgId aliveT (pre ++ [KMsg.status ("idle") msgId]) acc =
      (.ok (joinOutputs (acc ++ (pre.map msgContribs).flatten)), true) := by
  induction pre generalizing acc with
  | nil => simp [execLoop]
  | cons m rest ih =>
      have hm := h m (List.mem_cons_self m rest)
      have hrest : ∀ m' ∈ rest, isTerminator msgId m' = false :=
        fun m' hm' => h m' (List.mem_cons_of_mem m hm')
      cases m with
      | stream t =>
          simp [execLoop, ih _ hrest, msgContribs, List.append_assoc]
      | executeResult t =>
          simp [execLoop, ih _ hrest, msgContribs, List.append_assoc]
      | displayData png html t =>
          cases png with
          | false =>
              cases html with
              | false =>
                  by_cases ht : t = ""
                  · simp [execLoop, ih _ hrest, msgContribs, ht]
                  · simp [execLoop, ih _ hrest, msgContribs, ht, List.append_assoc]
              | true => simp [execLoop, ih _ hrest, msgContribs, List.append_assoc]
          | true => simp [execLoop, ih _ hrest, msgContribs, List.append_assoc]
      | errorMsg ename evalue tb =>
          simp [isTerminator] at hm
      | status es parent =>
          by_cases hes : es = "idle"
          · by_cases hpar : parent = msgId
            · exfalso
              rw [hes, hpar] at hm
              simp [isTerminator] at hm
            · simp [execLoop, hes, hpar, ih _ hrest, msgContribs]
          · simp [execLoop, hes, ih _ hrest, msgContribs]
      | other =>
          simp [execLoop, ih _ hrest, msgContribs]

/-- C2 witness: the amended statement evaluated at a concrete error-free
execution with two output messages. -/
theorem c2_success_output_is_newline_join_witness :
    execLoop "m1" true ([KMsg.stream ("x"), KMsg.executeResult ("y")] ++ [KMsg.status ("idle") "m1"]) [] =
      (.ok (joinOutputs ([] ++ ([KMsg.stream ("x"), KMsg.executeResult ("y")].map msgContribs).flatten)), true) :=
  c2_success_output_is_newline_join "m1" true [KMsg.stream ("x"), KMsg.executeResult ("y")] [] (by decide)

/-- C4: the loop terminates with success only upon an idle-status message
whose parent token equals the submitted token: an idle status carrying any
other token is ignored (the loop continues on the remaining messages), and
any run of the loop returning a successful output consumed an idle status
bearing the submitted token. -/
theorem c4_success_only_on_matching_idle (msgId parent : String) (aliveT : Bool)
    (rest msgs : List KMsg) (acc : List String) (out : String)
    (hp : parent ≠ msgId) :
    execLoop msgId aliveT (KMsg.status ("idle") parent :: rest) acc = execLoop msgId aliveT rest acc ∧
    ((execLoop msgId aliveT msgs acc).1 = .ok out → KMsg.status ("idle") msgId ∈ msgs) := by
  constructor
  · simp [execLoop, hp]
  · induction msgs generalizing acc with
    | nil =>
        intro hok
        exfalso
        cases aliveT <;> simp [execLoop] at hok
    | cons m rest2 ih =>
        intro hok
        cases m with
        | stream t =>
            simp only [execLoop] at hok
            exact List.mem_cons_of_mem _ (ih _ hok)
        | executeResult t =>
            simp only [execLoop] at hok
            exact List.mem_cons_of_mem _ (ih _ hok)
        | displayData png html t =>
            cases png with
            | false =>
                cases html with
                | false =>
                    by_cases ht : t = ""
                    · simp [execLoop, ht] at hok
                      exact List.mem_cons_of_mem _ (ih _ hok)
                    · simp [execLoop, ht] at hok
                      exact List.mem_cons_of_mem _ (ih _ hok)
                | true =>
                    simp only [execLoop, Bool.false_eq_true, if_false, if_true] at hok
                    exact List.mem_cons_of_mem _ (ih _ hok)
            | true =>
                simp only [execLoop, if_true] at hok
                exact List.mem_cons_of_mem _ (ih _ hok)
        | errorMsg ename evalue tb =>
            exfalso
            simp [execLoop] at hok
        | status es parent2 =>
            by_cases hes : es = "idle"
            · by_cases hpar : parent2 = msgId
              · rw [hes, hpar]
                exact List.mem_cons_self _ _
              · simp [execLoop, hes, hpar] at hok
                exact List.mem_cons_of_mem _ (ih _ hok)
            · simp [execLoop, hes] at hok
              exact List.mem_cons_of_mem _ (ih _ hok)
        | other =>
            simp only [execLoop] at hok
            exact List.mem_cons_of_mem _ (ih _ hok)

/-- C4 witness: the theorem applied at a concrete non-matching token. -/
theorem c4_success_only_on_matching_idle_witness :
    execLoop "m1" true [KMsg.status ("idle") ("p2")] [] = execLoop "m1" true [] [] ∧
    ((execLoop "m1" true [] []).1 = .ok "" → KMsg.status ("idle") "m1" ∈ ([] : List KMsg)) :=
  c4_success_only_on_matching_idle "m1" "p2" true [] [] [] "" (by decide)

/-- C6: when no message arrives within the per-message wait (source lines
151-160): if the kernel process is still alive, the result is the 408
execution-timeout error and the readiness flag is untouched; if the process
died mid-wait, the result is the kernel-died `RuntimeError` and the session's
readiness flag is cleared so the next access triggers a restart. -/
theorem c6_timeout_vs_dead_kernel (s : SessionInfo) (env : RunEnv)
    (hready : s.ready = true) (halive : s.alive = true) (hresp : env.responses = []) :
    (env.aliveAtTimeout = true →
      execute_code s env =
        (.err (.httpException 408 (.text ("Code execution timed out waiting for response from kernel."))), s)) ∧
    (env.aliveAtTimeout = false →
      execute_code s env =
        (.err (.runtimeError ("Kernel died during execution. Please restart session.")),
         { s with ready := false })) := by
  obtain ⟨ca, la, rd, al⟩ := s
  simp only at hready halive
  subst hready
  subst halive
  constructor <;> intro ha <;>
    simp [execute_code, execute_code_ready, hresp, ha, execLoop]

/-- C6 witness: the theorem applied to a live, ready session whose kernel
stays silent and alive through the wait. -/
theorem c6_timeout_vs_dead_kernel_witness :
    (({ happyEnv with responses := [] } : RunEnv).aliveAtTimeout = true →
      execute_code liveSession { happyEnv with responses := [] } =
        (.err (.httpException 408 (.text ("Code execution timed out waiting for response from kernel."))),
         liveSession)) ∧
    (({ happyEnv with responses := [] } : RunEnv).aliveAtTimeout = false →
      execute_code liveSession { happyEnv with responses := [] } =
        (.err (.runtimeError ("Kernel died during execution. Please restart session.")),
         { liveSession with ready := false })) :=
  c6_timeout_vs_dead_kernel liveSession { happyEnv with responses := [] } rfl rfl rfl

/-- Looking up a key just removed from the registry fails. -/
theorem lookupReg_removeKey_self (reg : Registry) (cid : String) :
    lookupReg (removeKey reg cid) cid = none := by
  induction reg with
  | nil => rfl
  | cons p rest ih =>
      obtain ⟨k, s⟩ := p
      by_cases hk : k = cid
      · simp [removeKey, hk, ih]
      · simp [removeKey, lookupReg, hk, ih]

/-- C3 (amended): a failed session creation — including a bootstrap failure
after the kernel came up — always leaves the conversation id unregistered,
and every failure path of `get_session` (unknown id, failed
restart-after-death, failed readiness wait with failed restart) leaves the
id unregistered as well; a restart failure during an explicit `/reset`
request, by contrast, keeps the session registered (see the
counterexample). -/
theorem c3_failed_creation_and_access_restart_remove_session
    (reg : Registry) (cid : String) (env : RunEnv) :
    (∀ e, (_create_session reg cid env).1 = .error e →
      lookupReg (_create_session reg cid env).2 cid = none) ∧
    (∀ e, (get_session reg cid env).1 = .error e →
      lookupReg (get_session reg cid env).2 cid = none) := by
  constructor
  · intro e he
    unfold _create_session at he ⊢
    by_cases hnb : env.notebookOk = false
    · simp [hnb, lookupReg_removeKey_self]
    · by_cases hsu : env.setupOk
      · simp [hnb, hsu] at he
      · simp [hnb, hsu, lookupReg_removeKey_self]
  · intro e he
    unfold get_session at he ⊢
    cases hl : lookupReg reg cid with
    | none => simp [hl]
    | some s0 =>
        rw [hl] at he
        cases hA : s0.alive with
        | false =>
            cases hR : env.accessResetOk with
            | true => simp [hA, hR] at he
            | false => simp [hl, hA, hR, lookupReg_removeKey_self]
        | true =>
            cases hRd : s0.ready with
            | true => simp [hA, hRd] at he
            | false =>
                cases hW : env.waitReadyOk with
                | true => simp [hA, hRd, hW] at he
                | false =>
                    cases hR : env.accessResetOk with
                    | true => simp [hA, hRd, hW, hR] at he
                    | false => simp [hl, hA, hRd, hW, hR, lookupReg_removeKey_self]

/-- C3 witness: a creation whose bootstrap snippet fails, at a concrete
input, leaves the id unregistered. -/
theorem c3_failed_creation_removes_session_witness :
    lookupReg (_create_session [("C", liveSession)] "C" { happyEnv with setupOk := false }).2 "C" = none :=
  (c3_failed_creation_and_access_restart_remove_session [("C", liveSession)] "C"
      { happyEnv with setupOk := false }).1
    (500, "Failed to create session: 500: Failed to initialize session environment: boom") (by rfl)

/-- A lookup fails exactly when the key is not among the registry's keys. -/
theorem lookupReg_eq_none_iff (reg : Registry) (cid : String) :
    lookupReg reg cid = none ↔ cid ∉ keys reg := by
  induction reg with
  | nil => simp [lookupReg, keys]
  | cons p rest ih =>
      obtain ⟨k, s⟩ := p
      by_cases hk : k = cid
      · simp [lookupReg, keys, hk]
      · have hck : cid ≠ k := fun h => hk h.symm
        simp [lookupReg, keys, hk, hck, ih]

/-- Removing an absent key leaves the registry unchanged. -/
theorem removeKey_of_lookup_none (reg : Registry) (cid : String)
    (h : lookupReg reg cid = none) : removeKey reg cid = reg := by
  induction reg with
  | nil => rfl
  | cons p rest ih =>
      obtain ⟨k, s⟩ := p
      by_cases hk : k = cid
      · simp [lookupReg, hk] at h
      · simp only [lookupReg, if_neg hk] at h
        simp [removeKey, hk, ih h]

/-- `removeKey` as a filter on the key. -/
theorem removeKey_eq_filter (reg : Registry) (cid : String) :
    removeKey reg cid = reg.filter (fun p => decide (p.1 ≠ cid)) := by
  induction reg with
  | nil => rfl
  | cons p rest ih =>
      obtain ⟨k, s⟩ := p
      by_cases hk : k = cid
      · simp [removeKey, List.filter_cons, hk, ih]
      · simp [removeKey, List.filter_cons, hk, ih]

/-- The second GC phase removes exactly the entries whose key was
collected. -/
theorem sweepRemove_eq_filter (ids : List String) (reg : Registry) :
    sweepRemove ids reg = reg.filter (fun p => decide (p.1 ∉ ids)) := by
  induction ids generalizing reg with
  | nil => simp [sweepRemove]
  | cons c cs ih =>
      have hstep : sweepRemove (c :: cs) reg = sweepRemove cs (removeKey reg c) := by
        cases hl : (lookupReg reg c).isSome with
        | true => simp [sweepRemove, hl]
        | false =>
            have hn : lookupReg reg c = none := by
              cases hlk : lookupReg reg c with
              | none => rfl
              | some s => rw [hlk] at hl; simp at hl
            simp [sweepRemove, hl, removeKey_of_lookup_none reg c hn]
      rw [hstep, ih, removeKey_eq_filter, List.filter_filter]
      apply List.filter_congr
      intro p hp
      simp [List.mem_cons, not_or, Bool.and_comm]

/-- With pairwise-distinct keys, every entry of the registry is found by
`lookupReg`. -/
theorem lookupReg_of_mem_nodup (reg : Registry) (cid : String) (s : SessionInfo)
    (hnd : (keys reg).Nodup) (hmem : (cid, s) ∈ reg) : lookupReg reg cid = some s := by
  induction reg with
  | nil => cases hmem
  | cons p rest ih =>
      obtain ⟨k, s0⟩ := p
      simp only [keys, List.map_cons, List.nodup_cons] at hnd
      rcases List.mem_cons.mp hmem with heq | hmem2
      · cases heq
        simp [lookupReg]
      · have hk : k ≠ cid := by
          intro hkc
          subst hkc
          exact hnd.1 (List.mem_map_of_mem Prod.fst hmem2)
        simp only [lookupReg, if_neg hk]
        exact ih hnd.2 hmem2

/-- C7: a GC sweep cycle removes from the registry exactly the sessions whose
idle duration `now - last_activity` exceeds the one-hour threshold (sessions
idle for at most 3600 s, in particular strictly less, are retained); a key in
the snapshot that is no longer registered collects nothing, and popping an
already-removed key is silently skipped. -/
theorem c7_sweep_removes_exactly_expired (reg : Registry) (now : Int) (ids : List String)
    (cid : String) (hnd : (keys reg).Nodup) :
    cleanup_cycle (keys reg) reg now =
      reg.filter (fun p => decide (now - p.2.lastActivity ≤ 3600)) ∧
    (cid ∉ keys reg → cleanup_cycle (cid :: ids) reg now = cleanup_cycle ids reg now) ∧
    (lookupReg reg cid = none → sweepRemove [cid] reg = reg) := by
  refine ⟨?_, ?_, ?_⟩
  · rw [cleanup_cycle, sweepRemove_eq_filter]
    apply List.filter_congr
    intro p hp
    obtain ⟨k, s⟩ := p
    have hlk : lookupReg reg k = some s := lookupReg_of_mem_nodup reg k s hnd hp
    have hkmem : k ∈ keys reg := List.mem_map_of_mem Prod.fst hp
    have hmemc : k ∈ collectInactive (keys reg) reg now ↔ 3600 < now - s.lastActivity := by
      simp [collectInactive, List.mem_filter, hlk, hkmem]
    show decide (k ∉ collectInactive (keys reg) reg now) = decide (now - s.lastActivity ≤ 3600)
    rw [decide_eq_decide, hmemc]
    exact not_lt
  · intro hnm
    have hn : lookupReg reg cid = none := (lookupReg_eq_none_iff reg cid).mpr hnm
    simp [cleanup_cycle, collectInactive, List.filter_cons, hn]
  · intro hn
    simp [sweepRemove, hn]

/-- A session whose last activity was at second 9000. -/
def recentSession : SessionInfo := { createdAt := 9000, lastActivity := 9000, ready := true, alive := true }

/-- A registry with one long-idle and one recently active session. -/
def gcReg : Registry := [("A", liveSession), ("B", recentSession)]

/-- C7 witness: the sweep at time 10000 over a registry holding one session
idle for 10000 s and one idle for 1000 s removes exactly the former. -/
theorem c7_sweep_removes_exactly_expired_witness :
    cleanup_cycle (keys gcReg) gcReg 10000 =
      gcReg.filter (fun p => decide (10000 - p.2.lastActivity ≤ 3600)) ∧
    cleanup_cycle (keys gcReg) gcReg 10000 = [("B", recentSession)] :=
  ⟨(c7_sweep_removes_exactly_expired gcReg 10000 [] "Z" (by decide)).1, by decide⟩

/-- A dependency entry that `_install_dependencies` passes over without
aborting: an empty name, or one whose pip install and kernel import both
succeed. -/
def depStepOk (pip : String → PipOutcome) (imp : String → ExecResult) (q : String) : Prop :=
  q = "" ∨ ((∃ o, pip q = .ok o) ∧ ∃ out, imp (importName q) = .ok out)

/-- A passing entry leaves the rest of the dependency walk unchanged. -/
theorem install_step_ok (pip : String → PipOutcome) (imp : String → ExecResult)
    (q : String) (l : List String) (h : depStepOk pip imp q) :
    _install_dependencies pip imp (q :: l) = _install_dependencies pip imp l := by
  rcases h with hq | ⟨⟨o, ho⟩, ⟨out, hout⟩⟩
  · simp [_install_dependencies, hq]
  · by_cases hq : q = ""
    · simp [_install_dependencies, hq]
    · simp [_install_dependencies, hq, ho, hout]

/-- An inserted key is found by a subsequent lookup. -/
theorem lookupReg_insertReg_self (reg : Registry) (cid : String) (s : SessionInfo) :
    lookupReg (insertReg reg cid s) cid = some s := by
  induction reg with
  | nil => simp [insertReg, lookupReg]
  | cons p rest ih =>
      obtain ⟨k, s0⟩ := p
      by_cases hk : k = cid
      · simp [insertReg, hk, lookupReg]
      · simp [insertReg, hk, lookupReg, ih]

/-- C8: dependency installation processes the names strictly in list order
and is fail-fast: when every name before `p` passes and `p` fails at either
stage, the walk's outcome is exactly that of installing `[p]` alone — the
names after `p` are never consulted — and the reported error is the
`HTTPException` naming `p` and its failing stage; and a `/run` request on a
live, ready session whose dependency list fails in this way leaves the
session registered (dependency handling never touches the registry). -/
theorem c8_install_in_order_fail_fast (pip : String → PipOutcome) (imp : String → ExecResult)
    (pre post : List String) (p : String)
    (hpre : ∀ q ∈ pre, depStepOk pip imp q)
    (hp : p ≠ "")
    (hfail : (∀ o, pip p ≠ .ok o) ∨ ∃ e, imp (importName p) = .err e) :
    _install_dependencies pip imp (pre ++ p :: post) = _install_dependencies pip imp [p] ∧
    (_install_dependencies pip imp [p]).isSome = true ∧
    (∀ errText, pip p = .fail errText →
      _install_dependencies pip imp [p] =
        some (400, "Failed to install dependency '" ++ p ++ "': " ++ errText)) ∧
    (pip p = .timedOut →
      _install_dependencies pip imp [p] =
        some (408, "Package installation timed out for '" ++ p ++ "'")) ∧
    (∀ o st d, pip p = .ok o → imp (importName p) = .err (.httpException st d) →
      _install_dependencies pip imp [p] =
        some (400, "Package '" ++ p ++ "' installed but failed to import in kernel: " ++ detailStr d)) ∧
    (∀ reg cid s env, lookupReg reg cid = some s → s.alive = true → s.ready = true →
      env.pip = pip → env.imp = imp →
      lookupReg (run_endpoint reg cid (pre ++ p :: post) env).2 cid =
        some { s with lastActivity := env.now }) := by
  have hdrop : ∀ l : List String, (∀ q ∈ l, depStepOk pip imp q) →
      _install_dependencies pip imp (l ++ p :: post) = _install_dependencies pip imp (p :: post) := by
    intro l
    induction l with
    | nil => intro _; rfl
    | cons q qs ih =>
        intro hl
        rw [List.cons_append, install_step_ok pip imp q _ (hl q (List.mem_cons_self q qs))]
        exact ih (fun r hr => hl r (List.mem_cons_of_mem q hr))
  have hpfail : ∀ l : List String,
      _install_dependencies pip imp (p :: l) = _install_dependencies pip imp [p] := by
    intro l
    rcases hfail with hpip | ⟨e, he⟩
    · cases hpo : pip p with
      | ok o => exact absurd hpo (hpip o)
      | fail e2 => simp [_install_dependencies, hp, hpo]
      | timedOut => simp [_install_dependencies, hp, hpo]
    · cases hpo : pip p with
      | ok o =>
          cases e with
          | httpException st d => simp [_install_dependencies, hp, hpo, he]
          | runtimeError m => simp [_install_dependencies, hp, hpo, he]
      | fail e2 => simp [_install_dependencies, hp, hpo]
      | timedOut => simp [_install_dependencies, hp, hpo]
  have hmain : _install_dependencies pip imp (pre ++ p :: post) = _install_dependencies pip imp [p] := by
    rw [hdrop pre hpre, hpfail post]
  have hsome : (_install_dependencies pip imp [p]).isSome = true := by
    rcases hfail with hpip | ⟨e, he⟩
    · cases hpo : pip p with
      | ok o => exact absurd hpo (hpip o)
      | fail e2 => simp [_install_dependencies, hp, hpo]
      | timedOut => simp [_install_dependencies, hp, hpo]
    · cases hpo : pip p with
      | ok o =>
          cases e with
          | httpException st d => simp [_install_dependencies, hp, hpo, he]
          | runtimeError m => simp [_install_dependencies, hp, hpo, he]
      | fail e2 => simp [_install_dependencies, hp, hpo]
      | timedOut => simp [_install_dependencies, hp, hpo]
  refine ⟨hmain, hsome, ?_, ?_, ?_, ?_⟩
  · intro errText hf
    simp [_install_dependencies, hp, hf]
  · intro hf
    simp [_install_dependencies, hp, hf]
  · intro o st d hpo he
    simp [_install_dependencies, hp, hpo, he]
  · intro reg cid s env hl ha hr hpip himp
    obtain ⟨v, hv⟩ := Option.isSome_iff_exists.mp hsome
    obtain ⟨st, d⟩ := v
    have hinst : _install_dependencies env.pip env.imp (pre ++ p :: post) = some (st, d) := by
      rw [hpip, himp, hmain, hv]
    simp only [run_endpoint, hl, Option.isSome_some, if_true, get_session, ha, hr]
    simp only [hinst]
    simp [lookupReg_insertReg_self]

/-- C8 witness: with one passing name before it, the failing name "badpkg"
aborts the walk — the outcome equals that of installing it alone — whatever
names follow. -/
theorem c8_install_in_order_fail_fast_witness :
    _install_dependencies (fun q => if q = "badpkg" then .fail ("no matching distribution") else .ok "")
        (fun _ => .ok "") (["good1"] ++ "badpkg" :: ["never-reached"]) =
      _install_dependencies (fun q => if q = "badpkg" then .fail ("no matching distribution") else .ok "")
        (fun _ => .ok "") ["badpkg"] :=
  (c8_install_in_order_fail_fast
      (fun q => if q = "badpkg" then .fail ("no matching distribution") else .ok "")
      (fun _ => .ok "") ["good1"] ["never-reached"] "badpkg"
      (by
        intro q hq
        simp at hq
        subst hq
        exact Or.inr ⟨⟨"", rfl⟩, ⟨"", rfl⟩⟩)
      (by decide)
      (Or.inl (fun o h => PipOutcome.noConfusion h))).1

/-- C10: empty-string entries in the dependencies list are silently skipped:
the walk over a list containing an empty name behaves exactly as the walk
over the list with that name absent — no install step, no import, no error,
and processing continues with the remaining names. -/
theorem c10_empty_dependency_names_skipped (pip : String → PipOutcome)
    (imp : String → ExecResult) (pre post : List String) :
    _install_dependencies pip imp (pre ++ "" :: post) =
      _install_dependencies pip imp (pre ++ post) := by
  induction pre with
  | nil => simp [_install_dependencies]
  | cons q qs ih =>
      simp only [List.cons_append]
      by_cases hq : q = ""
      · simp [_install_dependencies, hq, ih]
      · simp only [_install_dependencies, hq, if_false]
        cases hpip : pip q with
        | timedOut => rfl
        | fail e => rfl
        | ok o =>
            cases himp : imp (importName q) with
            | ok out => simp [himp, ih]
            | err e => cases e <;> simp [himp]
